import Mathlib

/-!
Shallow embedding of `src/lib.rs` of the smart-home prototype: devices
(sockets and thermometers), rooms, a house, and the two report strategies
(owning and borrowing).  Rust `&mut self` methods returning `Result<(), E>`
are modelled as functions returning the new state paired with an
`Except String Unit`; `&self` methods are pure functions of the state.
`Vec` becomes `List`, `Arc<dyn Pluggable>` becomes the closed sum
`Pluggable` of the two device variants, and `format!`/`writeln!` become
explicit string concatenation (each `Display` impl uses `writeln!`, so every
display string ends with a newline character).
-/

/-- Claim sources: `SmartSocket` with its name, from `src/lib.rs`. -/
structure SmartSocket where
  name : String
deriving DecidableEq, Repr

/-- Claim sources: `SmartThermometer` with its name, from `src/lib.rs`. -/
structure SmartThermometer where
  name : String
deriving DecidableEq, Repr

/-- Trait object `Arc<dyn Pluggable>`: the closed sum of the two device
variants present in the program.  The only capability a room uses is
`name()`. -/
inductive Pluggable where
  | socket (s : SmartSocket)
  | thermometer (t : SmartThermometer)
deriving DecidableEq, Repr

/-- The `Named::name` dispatch for trait objects. -/
def Pluggable.name : Pluggable → String
  | .socket s => s.name
  | .thermometer t => t.name

/-- A `SmartRoom`: a name and an ordered device sequence (`Vec` as `List`). -/
structure SmartRoom where
  name : String
  devices : List Pluggable
deriving DecidableEq, Repr

/-- The constructor `SmartRoom::new`: empty device vector. -/
def SmartRoom.new (name : String) : SmartRoom :=
  { name := name, devices := [] }

/-- The method `SmartRoom::plug`: linear scan (`iter().find`) for a device
with the same name; on a hit, error and no mutation; otherwise push the
device at the end.  Modelled as state-in/state-out because the Rust method
takes `&mut self`. -/
def SmartRoom.plug (room : SmartRoom) (device : Pluggable) :
    SmartRoom × Except String Unit :=
  match room.devices.find? (fun d => d.name == device.name) with
  | some _ =>
      (room, .error ("Device with name " ++ device.name ++ " already pluged"))
  | none =>
      ({ room with devices := room.devices ++ [device] }, .ok ())

/-- The method `SmartRoom::is_connected`: true iff some plugged device has
the same name (`iter().any`). -/
def SmartRoom.is_connected (room : SmartRoom) (device : Pluggable) : Bool :=
  room.devices.any (fun d => d.name == device.name)

/-- The method `SmartRoom::devices`: names in insertion order. -/
def SmartRoom.deviceNames (room : SmartRoom) : List String :=
  room.devices.map Pluggable.name

/-- A `SmartHouse`: a name and an ordered room sequence. -/
structure SmartHouse where
  name : String
  rooms : List SmartRoom
deriving DecidableEq, Repr

/-- The constructor `SmartHouse::new`: empty room vector. -/
def SmartHouse.new (name : String) : SmartHouse :=
  { name := name, rooms := [] }

/-- The method `SmartHouse::add`: linear scan for a room with the same name;
on a hit, error and no mutation; otherwise push the room at the end. -/
def SmartHouse.add (house : SmartHouse) (room : SmartRoom) :
    SmartHouse × Except String Unit :=
  match house.rooms.find? (fun v => v.name == room.name) with
  | some _ =>
      (house, .error ("room " ++ room.name ++ " already constructed"))
  | none =>
      ({ house with rooms := house.rooms ++ [room] }, .ok ())

/-- The `Display` impl for `SmartSocket`: `writeln!(f, "----> Device:
Socket[{}]", self.name())`. -/
def SmartSocket.display (s : SmartSocket) : String :=
  "----> Device: Socket[" ++ s.name ++ "]\n"

/-- The `Display` impl for `SmartThermometer`. -/
def SmartThermometer.display (t : SmartThermometer) : String :=
  "----> Device: Thermometer[" ++ t.name ++ "]\n"

/-- The `Display` impl for `SmartRoom`. -/
def SmartRoom.display (r : SmartRoom) : String :=
  "--> Room: " ++ r.name ++ "\n"

/-- The `Display` impl for `SmartHouse`. -/
def SmartHouse.display (h : SmartHouse) : String :=
  "-> House: " ++ h.name ++ "\n"

/-- The struct `OwningDeviceInfoProvider`: owns its socket by value. -/
structure OwningDeviceInfoProvider where
  socket : SmartSocket
deriving DecidableEq, Repr

/-- The `for` loop of `OwningDeviceInfoProvider::make`: scan rooms in order,
return at the first room connected to the socket, the report being
`format!("{} {} {}", house, room, socket)`. -/
def owningScan (houseDisp : String) (sock : SmartSocket) :
    List SmartRoom → Except String String
  | [] => .error "Device not found"
  | room :: rest =>
      if room.is_connected (.socket sock) then
        .ok (houseDisp ++ " " ++ room.display ++ " " ++ sock.display)
      else
        owningScan houseDisp sock rest

/-- `OwningDeviceInfoProvider::make`. -/
def OwningDeviceInfoProvider.make (p : OwningDeviceInfoProvider)
    (house : SmartHouse) : Except String String :=
  owningScan house.display p.socket house.rooms

/-- The struct `BorrowingDeviceInfoProvider`: borrows a socket and a
thermometer.  The lifetime parameters have no state content, so the
embedding carries the referenced device values. -/
structure BorrowingDeviceInfoProvider where
  socket : SmartSocket
  thermo : SmartThermometer
deriving DecidableEq, Repr

/-- The single `for` loop of `BorrowingDeviceInfoProvider::make`: one pass
over all rooms, overwriting `plugged_socket_room` and `plugged_thermo_room`
whenever the current room is connected to the respective device. -/
def borrowScan (sock : SmartSocket) (th : SmartThermometer)
    (rooms : List SmartRoom) : Option SmartRoom × Option SmartRoom :=
  rooms.foldl
    (fun acc room =>
      (if room.is_connected (.socket sock) then some room else acc.1,
       if room.is_connected (.thermometer th) then some room else acc.2))
    (none, none)

/-- `BorrowingDeviceInfoProvider::make`, with each `unwrap()` modelled as
`Option.getD d` for the supplied fallback room `d` standing in for the
panic value: the source calls `unwrap` only under `is_some` guards, and the
theorem for the safety claim shows `d` is never consulted. -/
def BorrowingDeviceInfoProvider.makeWith (d : SmartRoom)
    (p : BorrowingDeviceInfoProvider) (house : SmartHouse) :
    Except String String :=
  let ps := (borrowScan p.socket p.thermo house.rooms).1
  let pt := (borrowScan p.socket p.thermo house.rooms).2
  if pt.isNone && ps.isNone then
    .error "Devices not found"
  else
    if ps.isSome && pt.isSome then
      let sr := ps.getD d
      let tr := pt.getD d
      if sr.name == tr.name then
        .ok (house.display ++ " " ++ sr.display ++ " " ++
              p.socket.display ++ " " ++ p.thermo.display)
      else
        .ok (house.display ++ " " ++ sr.display ++ " " ++
              p.socket.display ++ " " ++ tr.display ++ " " ++
              p.thermo.display)
    else
      let fst :=
        if ps.isSome then
          house.display ++ " " ++ (ps.getD d).display ++ " " ++
            p.socket.display
        else
          "not found " ++ p.socket.display
      if pt.isSome then
        .ok (fst ++ "\n " ++ house.display ++ " " ++ (pt.getD d).display ++
              " " ++ p.thermo.display)
      else
        .ok (fst ++ " not found " ++ p.thermo.display)

/-- `BorrowingDeviceInfoProvider::make` with the canonical (irrelevant)
fallback room. -/
def BorrowingDeviceInfoProvider.make (p : BorrowingDeviceInfoProvider)
    (house : SmartHouse) : Except String String :=
  p.makeWith (SmartRoom.new "") house

/-- The same resolution logic written with total pattern matching instead
of guarded `unwrap`s: the reference point for the no-panic claim. -/
def BorrowingDeviceInfoProvider.makeSafe (p : BorrowingDeviceInfoProvider)
    (house : SmartHouse) : Except String String :=
  match borrowScan p.socket p.thermo house.rooms with
  | (none, none) => .error "Devices not found"
  | (some sr, some tr) =>
      if sr.name == tr.name then
        .ok (house.display ++ " " ++ sr.display ++ " " ++
              p.socket.display ++ " " ++ p.thermo.display)
      else
        .ok (house.display ++ " " ++ sr.display ++ " " ++
              p.socket.display ++ " " ++ tr.display ++ " " ++
              p.thermo.display)
  | (some sr, none) =>
      .ok (house.display ++ " " ++ sr.display ++ " " ++
            p.socket.display ++ " not found " ++ p.thermo.display)
  | (none, some tr) =>
      .ok ("not found " ++ p.socket.display ++ "\n " ++ house.display ++
            " " ++ tr.display ++ " " ++ p.thermo.display)

/-- The trait `Reportable` has exactly two implementors in the program; the
generic `create_report<T: Reportable>` is modelled over their closed sum. -/
inductive Provider where
  | owning (p : OwningDeviceInfoProvider)
  | borrowing (p : BorrowingDeviceInfoProvider)

/-- Dynamic dispatch of `Reportable::make`. -/
def Provider.make : Provider → SmartHouse → Except String String
  | .owning p, house => p.make house
  | .borrowing p, house => p.make house

/-- `SmartHouse::create_report`: delegates to the strategy. -/
def SmartHouse.create_report (house : SmartHouse) (report : Provider) :
    Except String String :=
  report.make house

/-- `SmartHouse::create_report` in the same state-in/state-out presentation
used for the mutating methods: the Rust method takes `&self` (a shared
borrow), so the outgoing state is the incoming house. -/
def SmartHouse.create_reportSt (house : SmartHouse) (report : Provider) :
    SmartHouse × Except String String :=
  (house, house.create_report report)

/-- `SmartRoom::is_connected` in state-in/state-out presentation (`&self`). -/
def SmartRoom.is_connectedSt (room : SmartRoom) (device : Pluggable) :
    SmartRoom × Bool :=
  (room, room.is_connected device)

/-- `SmartRoom::devices` in state-in/state-out presentation (`&self`). -/
def SmartRoom.deviceNamesSt (room : SmartRoom) : SmartRoom × List String :=
  (room, room.deviceNames)

/-- Boolean success test on a report result. -/
def reportOk : Except String String → Bool
  | .ok _ => true
  | .error _ => false

/-- Number of (possibly overlapping) occurrences of `pat` as a contiguous
character block, counted over starting positions. -/
def occursFrom (pat : List Char) : List Char → Nat
  | [] => 0
  | c :: rest =>
      (if List.isPrefixOf pat (c :: rest) then 1 else 0) + occursFrom pat rest

/-- Substring occurrence count on strings. -/
def countOccur (pat s : String) : Nat :=
  occursFrom pat.toList s.toList

/-- Rooms reachable from `SmartRoom::new` by `plug` calls. -/
inductive RoomReachable : SmartRoom → Prop where
  | new (name : String) : RoomReachable (SmartRoom.new name)
  | plug (room : SmartRoom) (device : Pluggable) :
      RoomReachable room → RoomReachable (room.plug device).1

/-- Houses reachable from `SmartHouse::new` by `add` calls. -/
inductive HouseReachable : SmartHouse → Prop where
  | new (name : String) : HouseReachable (SmartHouse.new name)
  | add (house : SmartHouse) (room : SmartRoom) :
      HouseReachable house → HouseReachable (house.add room).1

/-! Helper lemmas shared by the claim theorems. -/

/-- Helper: the owning scan returns at the first connected room, in the
sense of `List.find?`. -/
theorem owningScan_find (hd : String) (sock : SmartSocket)
    (l : List SmartRoom) :
    owningScan hd sock l =
      match l.find? (fun r => r.is_connected (.socket sock)) with
      | some r => .ok (hd ++ " " ++ r.display ++ " " ++ sock.display)
      | none => .error "Device not found" := by
  induction l with
  | nil => rfl
  | cons r rs ih =>
    rw [owningScan, List.find?_cons]
    cases h : r.is_connected (.socket sock) with
    | true => simp [h]
    | false => simp [h, ih]

/-- Helper: a left fold that overwrites its accumulator at every element
satisfying `p` computes the last match, i.e. the first match of the
reversed list (or keeps the initial accumulator when there is none). -/
theorem foldl_lastMatch (p : SmartRoom → Bool) (l : List SmartRoom)
    (acc : Option SmartRoom) :
    l.foldl (fun a r => if p r then some r else a) acc =
      match l.reverse.find? p with
      | some r => some r
      | none => acc := by
  induction l generalizing acc with
  | nil => rfl
  | cons x xs ih =>
    rw [List.foldl_cons, ih, List.reverse_cons, List.find?_append]
    cases hf : xs.reverse.find? p with
    | some r => simp
    | none =>
      cases hx : p x with
      | true => simp [List.find?, hx]
      | false => simp [List.find?, hx]

/-- Helper: the paired fold of the borrowing scan equals the two
independent per-device folds. -/
theorem borrowScan_pair (sock : SmartSocket) (th : SmartThermometer)
    (l : List SmartRoom) (acc : Option SmartRoom × Option SmartRoom) :
    l.foldl
      (fun acc room =>
        (if room.is_connected (.socket sock) then some room else acc.1,
         if room.is_connected (.thermometer th) then some room else acc.2))
      acc =
      (l.foldl
        (fun a r => if r.is_connected (.socket sock) then some r else a)
        acc.1,
       l.foldl
        (fun a r => if r.is_connected (.thermometer th) then some r else a)
        acc.2) := by
  induction l generalizing acc with
  | nil => rfl
  | cons x xs ih => rw [List.foldl_cons, ih]; rfl

/-- Helper: the borrowing scan resolves each device to the last connected
room in insertion order. -/
theorem borrowScan_eq (sock : SmartSocket) (th : SmartThermometer)
    (l : List SmartRoom) :
    borrowScan sock th l =
      (l.reverse.find? (fun r => r.is_connected (.socket sock)),
       l.reverse.find? (fun r => r.is_connected (.thermometer th))) := by
  rw [borrowScan, borrowScan_pair, foldl_lastMatch, foldl_lastMatch]
  cases l.reverse.find? (fun r => r.is_connected (.socket sock)) <;>
    cases l.reverse.find? (fun r => r.is_connected (.thermometer th)) <;> rfl

/-- Helper: the guarded-unwrap body and the pattern-matching body agree,
whatever value stands in for the panic of `unwrap`. -/
theorem makeWith_eq_makeSafe (d : SmartRoom)
    (p : BorrowingDeviceInfoProvider) (house : SmartHouse) :
    p.makeWith d house = p.makeSafe house := by
  rw [BorrowingDeviceInfoProvider.makeWith, BorrowingDeviceInfoProvider.makeSafe]
  rcases hpair : borrowScan p.socket p.thermo house.rooms with ⟨ps, pt⟩
  cases ps <;> cases pt <;> simp

/-- Helper: the public `make` of the borrowing provider is the
pattern-matching body. -/
theorem make_eq_makeSafe (p : BorrowingDeviceInfoProvider)
    (house : SmartHouse) : p.make house = p.makeSafe house :=
  makeWith_eq_makeSafe (SmartRoom.new "") p house

/-! Concrete instances used by witnesses and counterexamples. -/

/-- Concrete socket named S1. -/
def sockS1 : SmartSocket := { name := "S1" }

/-- Concrete thermometer named T1. -/
def thermoT1 : SmartThermometer := { name := "T1" }

/-- Concrete room A containing the socket S1. -/
def roomA : SmartRoom := { name := "A", devices := [.socket sockS1] }

/-- Concrete room B containing the thermometer T1. -/
def roomB : SmartRoom := { name := "B", devices := [.thermometer thermoT1] }

/-- Concrete room containing both devices. -/
def roomBoth : SmartRoom :=
  { name := "Boiler", devices := [.socket sockS1, .thermometer thermoT1] }

/-- House with the socket in room A and the thermometer in room B. -/
def houseAB : SmartHouse := { name := "H", rooms := [roomA, roomB] }

/-- House with only room A (socket present, thermometer absent). -/
def houseOnlyA : SmartHouse := { name := "H", rooms := [roomA] }

/-- House with only room B (thermometer present, socket absent). -/
def houseOnlyB : SmartHouse := { name := "H", rooms := [roomB] }

/-- House whose single room contains both devices. -/
def houseBoth : SmartHouse := { name := "H", rooms := [roomBoth] }

/-- House with no devices anywhere. -/
def houseEmpty : SmartHouse := { name := "H", rooms := [SmartRoom.new "A"] }

/-- The borrowing provider over S1 and T1. -/
def bProv : BorrowingDeviceInfoProvider :=
  { socket := sockS1, thermo := thermoT1 }

/-! Claim theorems. -/

/-- Claim C1: the owning strategy scans the house's rooms in insertion
order and at the first room whose `is_connected` holds for the owned
socket returns `<house-display> <room-display> <socket-display>`
(short-circuiting, so the first-added matching room is cited); when no
room contains the socket it fails with the "Device not found" error. -/
theorem owning_make_first_match (p : OwningDeviceInfoProvider)
    (house : SmartHouse) :
    p.make house =
      match house.rooms.find? (fun r => r.is_connected (.socket p.socket)) with
      | some r =>
          .ok (house.display ++ " " ++ r.display ++ " " ++ p.socket.display)
      | none => .error "Device not found" :=
  owningScan_find house.display p.socket house.rooms

/-- Claim C2: the borrowing strategy's scan runs over all rooms to
completion and resolves each of its two devices to the last room in
insertion order whose `is_connected` holds for it (the first match of the
reversed room list), later matches overwriting earlier ones. -/
theorem borrowing_last_match (sock : SmartSocket) (th : SmartThermometer)
    (house : SmartHouse) :
    borrowScan sock th house.rooms =
      (house.rooms.reverse.find? (fun r => r.is_connected (.socket sock)),
       house.rooms.reverse.find? (fun r => r.is_connected (.thermometer th))) :=
  borrowScan_eq sock th house.rooms

/-- Claim C9: no panic is reachable: the borrowing strategy's body, with
every `unwrap()` modelled as `Option.getD d` for an arbitrary stand-in
value `d` of the panic, coincides with the total pattern-matching body for
every input, so each `unwrap` runs only under its `is_some` guard and the
panic value is never consulted; all other operations are total functions
returning a value or a message-carrying error by construction. -/
theorem borrowing_make_no_panic (d : SmartRoom)
    (p : BorrowingDeviceInfoProvider) (house : SmartHouse) :
    p.makeWith d house = p.makeSafe house :=
  makeWith_eq_makeSafe d p house

/-- Claim C10: reporting is read-only: in the state-in/state-out
presentation, `create_report` (delegating to either strategy's `make`)
returns the house with its name, room sequence and every room's device
sequence unchanged, and `is_connected` and `devices` likewise return
their room unchanged.  In the source these methods take `&self`, a shared
borrow, so the embedding returns the incoming state. -/
theorem create_report_readonly (house : SmartHouse) (p : Provider)
    (room : SmartRoom) (dev : Pluggable) :
    (house.create_reportSt p).1.name = house.name ∧
    (house.create_reportSt p).1.rooms = house.rooms ∧
    (house.create_reportSt p).1.rooms.map SmartRoom.devices =
      house.rooms.map SmartRoom.devices ∧
    (room.is_connectedSt dev).1 = room ∧
    room.deviceNamesSt.1 = room :=
  ⟨rfl, rfl, rfl, rfl, rfl⟩

/-- Helper: boolean `any` succeeds exactly when `find?` returns a hit. -/
theorem any_iff_find?_isSome {α : Type} (p : α → Bool) (l : List α) :
    l.any p = true ↔ (l.find? p).isSome = true := by
  rw [List.any_eq_true, List.find?_isSome]

/-- Claim C5: the borrowing strategy errs (with "Devices not found" and no
report string) exactly when no room of the house is connected to either
the socket or the thermometer; as soon as one of the two devices is found
somewhere, `make` returns `Ok` with a string. -/
theorem borrowing_error_iff_none_found (p : BorrowingDeviceInfoProvider)
    (house : SmartHouse) :
    (house.rooms.any
        (fun r => r.is_connected (.socket p.socket) ||
          r.is_connected (.thermometer p.thermo)) = false →
      p.make house = .error "Devices not found") ∧
    (house.rooms.any
        (fun r => r.is_connected (.socket p.socket) ||
          r.is_connected (.thermometer p.thermo)) = true →
      reportOk (p.make house) = true) := by
  constructor
  · intro h
    have hall : ∀ r ∈ house.rooms,
        r.is_connected (.socket p.socket) = false ∧
        r.is_connected (.thermometer p.thermo) = false := by
      intro r hr
      have : ¬ (r.is_connected (.socket p.socket) ||
          r.is_connected (.thermometer p.thermo)) = true := by
        intro hcontra
        have hany : house.rooms.any
            (fun r => r.is_connected (.socket p.socket) ||
              r.is_connected (.thermometer p.thermo)) = true :=
          List.any_eq_true.mpr ⟨r, hr, hcontra⟩
        rw [h] at hany
        exact Bool.false_ne_true hany
      constructor
      · cases hs : r.is_connected (.socket p.socket) with
        | false => rfl
        | true => exact absurd (by rw [hs]; rfl) this
      · cases ht : r.is_connected (.thermometer p.thermo) with
        | false => rfl
        | true => exact absurd (by rw [ht, Bool.or_true]) this
    have hb : borrowScan p.socket p.thermo house.rooms = (none, none) := by
      rw [borrowScan_eq]
      have h1 : house.rooms.reverse.find?
          (fun r => r.is_connected (.socket p.socket)) = none := by
        rw [List.find?_eq_none]
        intro x hx
        simp [(hall x (List.mem_reverse.mp hx)).1]
      have h2 : house.rooms.reverse.find?
          (fun r => r.is_connected (.thermometer p.thermo)) = none := by
        rw [List.find?_eq_none]
        intro x hx
        simp [(hall x (List.mem_reverse.mp hx)).2]
      rw [h1, h2]
    rw [make_eq_makeSafe, BorrowingDeviceInfoProvider.makeSafe, hb]
  · intro h
    obtain ⟨r, hr, hpr⟩ := List.any_eq_true.mp h
    rw [make_eq_makeSafe, BorrowingDeviceInfoProvider.makeSafe]
    rcases hb : borrowScan p.socket p.thermo house.rooms with ⟨ps, pt⟩
    have hbe := hb
    rw [borrowScan_eq] at hbe
    cases ps with
    | none =>
      cases pt with
      | none =>
        exfalso
        have h1 : house.rooms.reverse.find?
            (fun r => r.is_connected (.socket p.socket)) = none :=
          congrArg Prod.fst hbe
        have h2 : house.rooms.reverse.find?
            (fun r => r.is_connected (.thermometer p.thermo)) = none :=
          congrArg Prod.snd hbe
        rw [List.find?_eq_none] at h1 h2
        rcases Bool.or_eq_true_iff.mp hpr with hc | hc
        · exact h1 r (List.mem_reverse.mpr hr) hc
        · exact h2 r (List.mem_reverse.mpr hr) hc
      | some tr => simp [reportOk]
    | some sr =>
      cases pt with
      | none => simp [reportOk]
      | some tr =>
        cases hname : sr.name == tr.name <;> simp [reportOk, hname]

/-- Witness for claim C5: at the device-free house the borrowing report
fails with "Devices not found", and at the house holding the socket and
thermometer it succeeds. -/
theorem borrowing_error_iff_none_found_w :
    bProv.make houseEmpty = .error "Devices not found" ∧
    reportOk (bProv.make houseAB) = true :=
  ⟨(borrowing_error_iff_none_found bProv houseEmpty).1 (by decide),
   (borrowing_error_iff_none_found bProv houseAB).2 (by decide)⟩

/-- Claim C6: `plug` fails exactly when an already-plugged device shares
the name, returning the room unchanged (so retries change nothing), and
otherwise appends the device at the end; `add` behaves symmetrically for
rooms of a house. -/
theorem plug_add_duplicate_handling (room : SmartRoom) (device : Pluggable)
    (house : SmartHouse) (newRoom : SmartRoom) :
    (room.devices.any (fun dv => dv.name == device.name) = true →
      room.plug device =
        (room,
         .error ("Device with name " ++ device.name ++ " already pluged"))) ∧
    (room.devices.any (fun dv => dv.name == device.name) = false →
      room.plug device =
        ({ room with devices := room.devices ++ [device] }, .ok ())) ∧
    (house.rooms.any (fun rm => rm.name == newRoom.name) = true →
      house.add newRoom =
        (house, .error ("room " ++ newRoom.name ++ " already constructed"))) ∧
    (house.rooms.any (fun rm => rm.name == newRoom.name) = false →
      house.add newRoom =
        ({ house with rooms := house.rooms ++ [newRoom] }, .ok ())) := by
  refine ⟨?_, ?_, ?_, ?_⟩ <;> intro h
  · have hs := (any_iff_find?_isSome _ _).mp h
    unfold SmartRoom.plug
    rcases hf : room.devices.find? (fun d => d.name == device.name) with _ | x
    · rw [hf] at hs; exact absurd hs (by simp)
    · rw [hf]
  · unfold SmartRoom.plug
    rcases hf : room.devices.find? (fun d => d.name == device.name) with _ | x
    · rw [hf]
    · have hs : (room.devices.find?
          (fun d => d.name == device.name)).isSome = true := by
        rw [hf]; rfl
      rw [← any_iff_find?_isSome] at hs
      rw [h] at hs
      exact absurd hs (by simp)
  · have hs := (any_iff_find?_isSome _ _).mp h
    unfold SmartHouse.add
    rcases hf : house.rooms.find? (fun v => v.name == newRoom.name) with _ | x
    · rw [hf] at hs; exact absurd hs (by simp)
    · rw [hf]
  · unfold SmartHouse.add
    rcases hf : house.rooms.find? (fun v => v.name == newRoom.name) with _ | x
    · rw [hf]
    · have hs : (house.rooms.find?
          (fun v => v.name == newRoom.name)).isSome = true := by
        rw [hf]; rfl
      rw [← any_iff_find?_isSome] at hs
      rw [h] at hs
      exact absurd hs (by simp)

/-- The room of the repository's `plug_devices` test, after its two
successful plugs. -/
def boilerRoom : SmartRoom :=
  { name := "Boiler",
    devices := [.thermometer { name := "Thermometer 1" },
                .socket { name := "Main socket" }] }

/-- The house of the repository's `construct_house` test, after its two
successful adds. -/
def hellHouse : SmartHouse :=
  { name := "hell", rooms := [SmartRoom.new "limb", SmartRoom.new "lust"] }

/-- Witness for claim C6: re-plugging a socket named "Main socket" into the
boiler room fails and leaves it unchanged, a fresh socket is appended;
re-adding "limb" to the hell house fails and leaves it unchanged, a fresh
room is appended. -/
theorem plug_add_duplicate_handling_w :
    boilerRoom.plug (.socket { name := "Main socket" }) =
      (boilerRoom,
       .error ("Device with name " ++ "Main socket" ++ " already pluged")) ∧
    boilerRoom.plug (.socket { name := "S2" }) =
      ({ boilerRoom with
          devices := boilerRoom.devices ++ [.socket { name := "S2" }] },
       .ok ()) ∧
    hellHouse.add (SmartRoom.new "limb") =
      (hellHouse, .error ("room " ++ "limb" ++ " already constructed")) ∧
    hellHouse.add (SmartRoom.new "greed") =
      ({ hellHouse with
          rooms := hellHouse.rooms ++ [SmartRoom.new "greed"] }, .ok ()) :=
  ⟨(plug_add_duplicate_handling boilerRoom (.socket { name := "Main socket" })
      hellHouse (SmartRoom.new "limb")).1 (by decide),
   (plug_add_duplicate_handling boilerRoom (.socket { name := "S2" })
      hellHouse (SmartRoom.new "limb")).2.1 (by decide),
   (plug_add_duplicate_handling boilerRoom (.socket { name := "Main socket" })
      hellHouse (SmartRoom.new "limb")).2.2.1 (by decide),
   (plug_add_duplicate_handling boilerRoom (.socket { name := "Main socket" })
      hellHouse (SmartRoom.new "greed")).2.2.2 (by decide)⟩

/-- Helper: `plug` preserves distinctness of device names. -/
theorem plug_preserves_nodup (room : SmartRoom) (device : Pluggable)
    (h : (room.devices.map Pluggable.name).Nodup) :
    ((room.plug device).1.devices.map Pluggable.name).Nodup := by
  unfold SmartRoom.plug
  rcases hf : room.devices.find? (fun d => d.name == device.name) with _ | x
  · rw [hf]
    have hmem : device.name ∉ room.devices.map Pluggable.name := by
      rw [List.find?_eq_none] at hf
      intro hmem
      obtain ⟨d, hd, hdn⟩ := List.mem_map.mp hmem
      exact hf d hd (by rw [hdn]; exact beq_self_eq_true _)
    simp only [List.map_append, List.map_cons, List.map_nil]
    rw [List.nodup_append]
    refine ⟨h, List.nodup_singleton _, ?_⟩
    intro a ha hb
    rw [List.mem_singleton] at hb
    exact hmem (hb ▸ ha)
  · rw [hf]
    exact h

/-- Helper: `add` preserves distinctness of room names. -/
theorem add_preserves_nodup (house : SmartHouse) (room : SmartRoom)
    (h : (house.rooms.map SmartRoom.name).Nodup) :
    ((house.add room).1.rooms.map SmartRoom.name).Nodup := by
  unfold SmartHouse.add
  rcases hf : house.rooms.find? (fun v => v.name == room.name) with _ | x
  · rw [hf]
    have hmem : room.name ∉ house.rooms.map SmartRoom.name := by
      rw [List.find?_eq_none] at hf
      intro hmem
      obtain ⟨r, hr, hrn⟩ := List.mem_map.mp hmem
      exact hf r hr (by rw [hrn]; exact beq_self_eq_true _)
    simp only [List.map_append, List.map_cons, List.map_nil]
    rw [List.nodup_append]
    refine ⟨h, List.nodup_singleton _, ?_⟩
    intro a ha hb
    rw [List.mem_singleton] at hb
    exact hmem (hb ▸ ha)
  · rw [hf]
    exact h

/-- Claim C7: every room reachable from `SmartRoom::new` by `plug` calls
has pairwise-distinct device names, and every house reachable from
`SmartHouse::new` by `add` calls has pairwise-distinct room names; the
mutating operations preserve both invariants (the remaining operations are
observations and leave state untouched). -/
theorem reachable_names_nodup :
    (∀ room, RoomReachable room →
      (room.devices.map Pluggable.name).Nodup) ∧
    (∀ house, HouseReachable house →
      (house.rooms.map SmartRoom.name).Nodup) := by
  constructor
  · intro room h
    induction h with
    | new n => exact List.nodup_nil
    | plug r d _ ih => exact plug_preserves_nodup r d ih
  · intro house h
    induction h with
    | new n => exact List.nodup_nil
    | add hs r _ ih => exact add_preserves_nodup hs r ih

/-- Witness for claim C7: the boiler room built by two `plug` calls and the
hell house built by one `add` call have distinct device and room names. -/
theorem reachable_names_nodup_w :
    ((((SmartRoom.new "Boiler").plug
          (.thermometer { name := "Thermometer 1" })).1.plug
        (.socket { name := "Main socket" })).1.devices.map
      Pluggable.name).Nodup ∧
    ((((SmartHouse.new "hell").add
        (SmartRoom.new "limb")).1.rooms.map SmartRoom.name).Nodup) :=
  ⟨reachable_names_nodup.1 _
    (RoomReachable.plug _ _
      (RoomReachable.plug _ _ (RoomReachable.new "Boiler"))),
   reachable_names_nodup.2 _
    (HouseReachable.add _ _ (HouseReachable.new "hell"))⟩

/-- Counterexample to claim C3 as stated: with the socket resolved to room
A and the thermometer to room B of house H, the report is the single line
`<house> <roomA> <socket> <roomB> <thermo>`: it differs from the claimed
concatenation of two `<house> <room> <device>` segments, and the house
display occurs once in it where the claimed form contains it twice. -/
theorem borrowing_both_found_cx :
    bProv.make houseAB =
      .ok (houseAB.display ++ " " ++ roomA.display ++ " " ++
        sockS1.display ++ " " ++ roomB.display ++ " " ++ thermoT1.display) ∧
    (houseAB.display ++ " " ++ roomA.display ++ " " ++ sockS1.display ++
        " " ++ roomB.display ++ " " ++ thermoT1.display) ≠
      (houseAB.display ++ " " ++ roomA.display ++ " " ++ sockS1.display) ++
        (houseAB.display ++ " " ++ roomB.display ++ " " ++
          thermoT1.display) ∧
    countOccur "House" (houseAB.display ++ " " ++ roomA.display ++ " " ++
      sockS1.display ++ " " ++ roomB.display ++ " " ++ thermoT1.display) =
      1 ∧
    countOccur "House" ((houseAB.display ++ " " ++ roomA.display ++ " " ++
      sockS1.display) ++ (houseAB.display ++ " " ++ roomB.display ++ " " ++
      thermoT1.display)) = 2 :=
  ⟨rfl, by decide, by decide, by decide⟩

/-- Claim C3 (amended): when both devices resolve, a same-room resolution
yields the single combined line `<house> <room> <socket> <thermo>`; a
different-rooms resolution yields the single line `<house> <socket-room>
<socket> <thermo-room> <thermo>` — the socket's room-and-device part
first, but the house display appearing only once, at the front, rather
than once per segment. -/
theorem borrowing_both_found (p : BorrowingDeviceInfoProvider)
    (house : SmartHouse) (sr tr : SmartRoom)
    (h : borrowScan p.socket p.thermo house.rooms = (some sr, some tr)) :
    (sr.name = tr.name →
      p.make house = .ok (house.display ++ " " ++ sr.display ++ " " ++
        p.socket.display ++ " " ++ p.thermo.display)) ∧
    (sr.name ≠ tr.name →
      p.make house = .ok (house.display ++ " " ++ sr.display ++ " " ++
        p.socket.display ++ " " ++ tr.display ++ " " ++
        p.thermo.display)) := by
  rw [make_eq_makeSafe, BorrowingDeviceInfoProvider.makeSafe, h]
  constructor
  · intro he
    simp [he]
  · intro hne
    simp [beq_iff_eq, hne]

/-- Witness for claim C3: the same-room house gives the combined line and
the two-room house gives the socket-first line with the house named once. -/
theorem borrowing_both_found_w :
    bProv.make houseBoth =
      .ok (houseBoth.display ++ " " ++ roomBoth.display ++ " " ++
        bProv.socket.display ++ " " ++ bProv.thermo.display) ∧
    bProv.make houseAB =
      .ok (houseAB.display ++ " " ++ roomA.display ++ " " ++
        bProv.socket.display ++ " " ++ roomB.display ++ " " ++
        bProv.thermo.display) :=
  ⟨(borrowing_both_found bProv houseBoth roomBoth roomBoth (by decide)).1
      rfl,
   (borrowing_both_found bProv houseAB roomA roomB (by decide)).2
      (by decide)⟩

/-- Counterexample to claim C4 as stated: with the socket found in room A
and the thermometer absent, the `not found` part is appended after the
socket's positive segment with a space, not with a newline separator: the
actual output differs from both newline-separated candidates. -/
theorem borrowing_one_found_cx :
    bProv.make houseOnlyA =
      .ok (houseOnlyA.display ++ " " ++ roomA.display ++ " " ++
        sockS1.display ++ " not found " ++ thermoT1.display) ∧
    (houseOnlyA.display ++ " " ++ roomA.display ++ " " ++ sockS1.display ++
        " not found " ++ thermoT1.display) ≠
      (houseOnlyA.display ++ " " ++ roomA.display ++ " " ++
        sockS1.display ++ "\n" ++ "not found " ++ thermoT1.display) ∧
    (houseOnlyA.display ++ " " ++ roomA.display ++ " " ++ sockS1.display ++
        " not found " ++ thermoT1.display) ≠
      (houseOnlyA.display ++ " " ++ roomA.display ++ " " ++
        sockS1.display ++ "\n " ++ "not found " ++ thermoT1.display) :=
  ⟨rfl, by decide, by decide⟩

/-- Claim C4 (amended): when exactly one device resolves, `make` returns
`Ok`; the socket's segment always comes first.  When the socket is found
and the thermometer is not, the output is the socket's positive segment
`<house> <room> <socket>` followed by ` not found <thermo>` appended with
a space (each display already ends in a newline).  When the thermometer is
found and the socket is not, the output is `not found <socket>` followed
by a newline-space separator and the thermometer's positive segment
`<house> <room> <thermo>`. -/
theorem borrowing_one_found (p : BorrowingDeviceInfoProvider)
    (house : SmartHouse) (r : SmartRoom) :
    (borrowScan p.socket p.thermo house.rooms = (some r, none) →
      p.make house = .ok (house.display ++ " " ++ r.display ++ " " ++
        p.socket.display ++ " not found " ++ p.thermo.display)) ∧
    (borrowScan p.socket p.thermo house.rooms = (none, some r) →
      p.make house = .ok ("not found " ++ p.socket.display ++ "\n " ++
        house.display ++ " " ++ r.display ++ " " ++ p.thermo.display)) := by
  constructor <;> intro h <;>
    rw [make_eq_makeSafe, BorrowingDeviceInfoProvider.makeSafe, h]

/-- Witness for claim C4: the socket-only house yields the space-appended
`not found` form; the thermometer-only house yields the newline-separated
form with the not-found socket segment first. -/
theorem borrowing_one_found_w :
    bProv.make houseOnlyA =
      .ok (houseOnlyA.display ++ " " ++ roomA.display ++ " " ++
        bProv.socket.display ++ " not found " ++ bProv.thermo.display) ∧
    bProv.make houseOnlyB =
      .ok ("not found " ++ bProv.socket.display ++ "\n " ++
        houseOnlyB.display ++ " " ++ roomB.display ++ " " ++
        bProv.thermo.display) :=
  ⟨(borrowing_one_found bProv houseOnlyA roomA).1 (by decide),
   (borrowing_one_found bProv houseOnlyB roomB).2 (by decide)⟩

/-- Counterexample to claim C8 as stated: the display of the house "hell"
is the arrow-prefixed, newline-terminated line, not the bare
`House: hell`; rooms and sockets differ likewise. -/
theorem display_formats_cx :
    SmartHouse.display (SmartHouse.new "hell") = "-> House: hell\n" ∧
    SmartHouse.display (SmartHouse.new "hell") ≠ "House: hell" ∧
    SmartRoom.display (SmartRoom.new "limb") ≠ "Room: limb" ∧
    SmartSocket.display { name := "S1" } ≠ "Device: Socket[S1]" :=
  ⟨rfl, by decide, by decide, by decide⟩

/-- Claim C8 (amended): for every name, the display of a house is
`-> House: <name>`, of a room `--> Room: <name>`, and of a device the
variant-tagged `----> Device: <Variant>[<name>]`, each terminated by a
newline (`writeln!`); these exact strings are the units composed inside
report strings. -/
theorem display_formats (n : String) (rs : List SmartRoom)
    (ds : List Pluggable) :
    SmartHouse.display { name := n, rooms := rs } =
      "-> House: " ++ n ++ "\n" ∧
    SmartRoom.display { name := n, devices := ds } =
      "--> Room: " ++ n ++ "\n" ∧
    SmartSocket.display { name := n } =
      "----> Device: Socket[" ++ n ++ "]\n" ∧
    SmartThermometer.display { name := n } =
      "----> Device: Thermometer[" ++ n ++ "]\n" :=
  ⟨rfl, rfl, rfl, rfl⟩
